import Mathlib

/-!
Shallow embedding of the `rysk` RISC-V instruction-decoding core.

Machine integers are modelled as `Nat` with explicit bounds (`w < 2 ^ 32`
for `u32`, `p < 2 ^ 16` for `u16`, `n < 256` for `u8`).  Rust's
arithmetic right shift on `i32` (`((w as i32) >> k) as u32`) is modelled
by `sra32`, which fills the top `k` bits with the sign bit (bit 31).
-/

namespace Rysk

/-- Arithmetic (sign-propagating) right shift of a 32-bit word by `k`
(`0 < k ≤ 31`): the vacated top `k` bits are copies of bit 31.  Models
Rust's `((w as i32) >> k) as u32`. -/
def sra32 (w k : Nat) : Nat :=
  (w >>> k) ||| (if w.testBit 31 then 2 ^ 32 - 2 ^ (32 - k) else 0)

/-- The 32 architectural registers `X0`–`X31`, backed (as in the Rust
`repr(u8)` enum) by their numeric value, which never exceeds 31. -/
def Register : Type := {n : Nat // n ≤ 31}

instance : DecidableEq Register := Subtype.instDecidableEq

/-- `Register::new_unchecked`: converts the register number to the
register.  The Rust version is `unsafe` with the safety precondition
`num <= 31`; here that precondition is the explicit proof argument. -/
def Register.new_unchecked (num : Nat) (h : num ≤ 31) : Register := ⟨num, h⟩

/-- `Register::new`: the register for `num`, or `none` if `num > 31`. -/
def Register.new (num : Nat) : Option Register :=
  if h : num > 31 then none else some (Register.new_unchecked num (by omega))

/-- The numeric value of a register (Rust's `r as u8`). -/
def Register.val (r : Register) : Nat := r.1

def Register.X7 : Register := ⟨7, by omega⟩

def Register.X8 : Register := ⟨8, by omega⟩

def Register.X10 : Register := ⟨10, by omega⟩

def Register.X11 : Register := ⟨11, by omega⟩

def Register.X15 : Register := ⟨15, by omega⟩

def Register.X17 : Register := ⟨17, by omega⟩

def Register.X19 : Register := ⟨19, by omega⟩

def Register.X27 : Register := ⟨27, by omega⟩

def Register.X31 : Register := ⟨31, by omega⟩

/-- A RISC-V standard or compressed machine instruction: an opaque
32-bit backing value. -/
structure Instruction where
  val : Nat

/-- `Instruction::new`: wraps an already-assembled 32-bit encoding. -/
def Instruction.new (instruction : Nat) : Instruction := ⟨instruction⟩

/-- Bound used to justify the unchecked register construction at each
field-extraction call site: a masked-then-shifted field is at most the
shifted mask. -/
theorem field_le (w m s : Nat) : (w &&& m) >>> s ≤ m >>> s := by
  rw [Nat.shiftRight_eq_div_pow, Nat.shiftRight_eq_div_pow]
  exact Nat.div_le_div_right Nat.and_le_right

/-- `Instruction::from_parcels`: takes two 16-bit parcels and returns
the instruction and a flag indicating a compressed instruction.  The
standard branch models `to_le_bytes`/`from_le_bytes` byte by byte. -/
def Instruction.from_parcels (p0 p1 : Nat) : Instruction × Bool :=
  if p0 &&& 0b11 ≠ 0b11 then
    (⟨p0⟩, true)
  else
    let a := p0 % 0x100
    let b := p0 / 0x100 % 0x100
    let c := p1 % 0x100
    let d := p1 / 0x100 % 0x100
    (⟨a + b * 0x100 + c * 0x10000 + d * 0x1000000⟩, false)

/-- `Instruction::compressed`. -/
def Instruction.compressed (i : Instruction) : Bool := i.val &&& 0b11 != 0b11

/-- `Instruction::standard`. -/
def Instruction.standard (i : Instruction) : Bool := i.val &&& 0b11 == 0b11

/-- `Instruction::opcode`: the standard opcode, bits [6:0]. -/
def Instruction.opcode (i : Instruction) : Nat := i.val &&& 0b1111111

/-- `Instruction::op`: the compressed opcode, bits [1:0]. -/
def Instruction.op (i : Instruction) : Nat := i.val &&& 0b11

/-- `Instruction::funct3`: bits [14:12]. -/
def Instruction.funct3 (i : Instruction) : Nat := (i.val &&& 0x00007000) >>> 12

/-- `Instruction::funct7`: bits [31:25]. -/
def Instruction.funct7 (i : Instruction) : Nat := (i.val &&& 0xFE000000) >>> 25

/-- `Instruction::compressed_funct2`. -/
def Instruction.compressed_funct2 (i : Instruction) : Nat := (i.val &&& 0x0060) >>> 5

/-- `Instruction::compressed_funct3`. -/
def Instruction.compressed_funct3 (i : Instruction) : Nat := (i.val &&& 0xE000) >>> 13

/-- `Instruction::compressed_funct4`. -/
def Instruction.compressed_funct4 (i : Instruction) : Nat := (i.val &&& 0xF000) >>> 12

/-- `Instruction::compressed_funct6`. -/
def Instruction.compressed_funct6 (i : Instruction) : Nat := (i.val &&& 0xFC00) >>> 10

/-- `Instruction::rd`: destination register, bits [11:7]. -/
def Instruction.rd (i : Instruction) : Register :=
  Register.new_unchecked ((i.val &&& 0x00000F80) >>> 7)
    (Nat.le_trans (field_le i.val 0x00000F80 7) (by decide))

/-- `Instruction::rs1`: first standard source register, bits [19:15]. -/
def Instruction.rs1 (i : Instruction) : Register :=
  Register.new_unchecked ((i.val &&& 0x000F8000) >>> 15)
    (Nat.le_trans (field_le i.val 0x000F8000 15) (by decide))

/-- `Instruction::rs2`: second standard source register, bits [24:20]. -/
def Instruction.rs2 (i : Instruction) : Register :=
  Register.new_unchecked ((i.val &&& 0x01F00000) >>> 20)
    (Nat.le_trans (field_le i.val 0x01F00000 20) (by decide))

/-- `Instruction::compressed_rs1`: first compressed full-sized source
register, bits [11:7]. -/
def Instruction.compressed_rs1 (i : Instruction) : Register :=
  Register.new_unchecked ((i.val &&& 0x0F80) >>> 7)
    (Nat.le_trans (field_le i.val 0x0F80 7) (by decide))

/-- `Instruction::compressed_rs2`: second compressed full-sized source
register, bits [6:2]. -/
def Instruction.compressed_rs2 (i : Instruction) : Register :=
  Register.new_unchecked ((i.val &&& 0x007C) >>> 2)
    (Nat.le_trans (field_le i.val 0x007C 2) (by decide))

/-- `Instruction::crs1`: first compressed half-sized source register,
3-bit field at bits [9:7] with the fixed `+8` offset. -/
def Instruction.crs1 (i : Instruction) : Register :=
  Register.new_unchecked (((i.val &&& 0x0380) >>> 7) + 8)
    (by
      have h := Nat.le_trans (field_le i.val 0x0380 7) (by decide : 0x0380 >>> 7 ≤ 7)
      omega)

/-- `Instruction::crs2`: second compressed half-sized source register,
3-bit field at bits [4:2] with the fixed `+8` offset. -/
def Instruction.crs2 (i : Instruction) : Register :=
  Register.new_unchecked (((i.val &&& 0x001C) >>> 2) + 8)
    (by
      have h := Nat.le_trans (field_le i.val 0x001C 2) (by decide : 0x001C >>> 2 ≤ 7)
      omega)

/-- `Instruction::i_immediate`: `((self.0 as i32) >> 20) as u32`. -/
def Instruction.i_immediate (i : Instruction) : Nat := sra32 i.val 20

/-- `Instruction::s_immediate`.  Rust's `!0b11111` on `u32` is the
constant `0xFFFFFFE0`. -/
def Instruction.s_immediate (i : Instruction) : Nat :=
  (sra32 i.val 20 &&& 0xFFFFFFE0) ||| ((i.val >>> 7) &&& 0b11111)

/-- `Instruction::b_immediate`.  Rust's `self.0 << 4` wraps on `u32`,
hence the explicit `% 2 ^ 32`. -/
def Instruction.b_immediate (i : Instruction) : Nat :=
  (sra32 i.val 19 &&& 0xFFFFF000) |||
  ((i.val <<< 4) % 2 ^ 32 &&& 0b100000000000) |||
  ((i.val >>> 20) &&& 0b11111100000) |||
  ((i.val >>> 7) &&& 0b11110)

/-- `Instruction::u_immediate`. -/
def Instruction.u_immediate (i : Instruction) : Nat := i.val &&& 0xFFFFF000

/-- `Instruction::j_immediate`. -/
def Instruction.j_immediate (i : Instruction) : Nat :=
  (sra32 i.val 11 &&& 0xFFF00000) |||
  (i.val &&& 0x000FF000) |||
  ((i.val >>> 8) &&& 0b100000000000) |||
  ((i.val >>> 20) &&& 0b11111111110)

/-- `Cause::<u32>::INTERRUPT_BIT`: `1 << (u32::BITS - 1)`. -/
def Cause.INTERRUPT_BIT32 : Nat := 1 <<< 31

/-- `Cause::<u64>::INTERRUPT_BIT`: `1 << (u64::BITS - 1)`. -/
def Cause.INTERRUPT_BIT64 : Nat := 1 <<< 63

/-- `Cause::<u32>::interrupt`: the stored value has the top bit set. -/
def Cause.interrupt32 (c : Nat) : Bool := c &&& Cause.INTERRUPT_BIT32 != 0

/-- `Cause::<u64>::interrupt`: the stored value has the top bit set. -/
def Cause.interrupt64 (c : Nat) : Bool := c &&& Cause.INTERRUPT_BIT64 != 0

/-- `Cause::FETCH_MISALIGN` (same value in both width specializations). -/
def Cause.FETCH_MISALIGN : Nat := 0

/-- `Cause::FETCH_FAULT` (same value in both width specializations). -/
def Cause.FETCH_FAULT : Nat := 1

/-- `Cause::ILLEGAL_INSTRUCTION` (same value in both width specializations). -/
def Cause.ILLEGAL_INSTRUCTION : Nat := 2

/-- `Cause::BREAKPOINT` (same value in both width specializations). -/
def Cause.BREAKPOINT : Nat := 3

/-- `Cause::LOAD_MISALIGN` (same value in both width specializations). -/
def Cause.LOAD_MISALIGN : Nat := 4

/-- `Cause::LOAD_FAULT` (same value in both width specializations). -/
def Cause.LOAD_FAULT : Nat := 5

/-- `Cause::STORE_MISALIGN` (same value in both width specializations). -/
def Cause.STORE_MISALIGN : Nat := 6

/-- `Cause::STORE_FAULT` (same value in both width specializations). -/
def Cause.STORE_FAULT : Nat := 7

theorem testBit_two_pow_sub_two_pow {a b : Nat} (h : b ≤ a) (i : Nat) :
    (2 ^ a - 2 ^ b).testBit i = (decide (b ≤ i) && decide (i < a)) := by
  have h1 : 2 ^ a - 2 ^ b = (2 ^ (a - b) - 1) <<< b := by
    rw [Nat.shiftLeft_eq, Nat.sub_mul, Nat.one_mul, ← Nat.pow_add]
    rw [Nat.sub_add_cancel h]
  rw [h1, Nat.testBit_shiftLeft, Nat.testBit_two_pow_sub_one]
  by_cases hbi : b ≤ i
  · have h2 : (i - b < a - b) ↔ (i < a) := by omega
    simp [hbi, h2]
  · simp [hbi]

theorem sra32_testBit_of_ge (w k i : Nat) (hw : w < 2 ^ 32) (hk : k ≤ 31)
    (hi1 : 32 - k ≤ i) (hi2 : i ≤ 31) : (sra32 w k).testBit i = w.testBit 31 := by
  have hwi : w.testBit (k + i) = false := by
    apply Nat.testBit_lt_two_pow
    calc w < 2 ^ 32 := hw
    _ ≤ 2 ^ (k + i) := Nat.pow_le_pow_right (by omega) (by omega)
  cases hs : w.testBit 31 with
  | false =>
    unfold sra32
    rw [if_neg (by simp [hs]), Nat.testBit_or, Nat.testBit_shiftRight, hwi, Nat.zero_testBit]
    rfl
  | true =>
    have hm : ((2 : Nat) ^ 32 - 2 ^ (32 - k)).testBit i = true := by
      rw [testBit_two_pow_sub_two_pow (show 32 - k ≤ 32 by omega)]
      simp only [Bool.and_eq_true, decide_eq_true_eq]
      exact ⟨hi1, by omega⟩
    unfold sra32
    rw [if_pos hs, Nat.testBit_or, Nat.testBit_shiftRight, hwi, hm]
    rfl

theorem sra32_testBit_of_lt (w k i : Nat) (hi : i < 32 - k) :
    (sra32 w k).testBit i = w.testBit (k + i) := by
  cases hs : w.testBit 31 with
  | false =>
    unfold sra32
    rw [if_neg (by simp [hs]), Nat.testBit_or, Nat.testBit_shiftRight, Nat.zero_testBit]
    exact Bool.or_false _
  | true =>
    have hm : ((2 : Nat) ^ 32 - 2 ^ (32 - k)).testBit i = false := by
      rw [testBit_two_pow_sub_two_pow (show 32 - k ≤ 32 by omega)]
      simp only [Bool.and_eq_false_iff, decide_eq_false_iff_not]
      left
      omega
    unfold sra32
    rw [if_pos hs, Nat.testBit_or, Nat.testBit_shiftRight, hm]
    exact Bool.or_false _

theorem sra32_testBit_sign (w k i : Nat) (hw : w < 2 ^ 32) (hk : k ≤ 31)
    (hi1 : 31 - k ≤ i) (hi2 : i ≤ 31) : (sra32 w k).testBit i = w.testBit 31 := by
  rcases Nat.lt_or_ge i (32 - k) with h | h
  · have hik : k + i = 31 := by omega
    rw [sra32_testBit_of_lt w k i h, hik]
  · exact sra32_testBit_of_ge w k i hw hk h hi2

theorem Instruction.new_val (w : Nat) : (Instruction.new w).val = w := rfl

theorem testBit_mask_true {m a b i : Nat} (hm : m = 2 ^ a - 2 ^ b) (hba : b ≤ a)
    (h1 : b ≤ i) (h2 : i < a) : m.testBit i = true := by
  rw [hm, testBit_two_pow_sub_two_pow hba]
  simp [h1, h2]

theorem testBit_mask_false {m a b i : Nat} (hm : m = 2 ^ a - 2 ^ b) (hba : b ≤ a)
    (h : i < b ∨ a ≤ i) : m.testBit i = false := by
  rw [hm, testBit_two_pow_sub_two_pow hba]
  rcases h with h | h
  · simp [show ¬ b ≤ i by omega]
  · simp [show ¬ i < a by omega]

/-- C1: the sign-extended immediate accessors propagate the architectural
sign bit (bit 31 of `w`): bits 31 down to 11 of `i_immediate` and of
`s_immediate`, bits 31 down to 12 of `b_immediate`, and bits 31 down to
20 of `j_immediate` all equal bit 31 of `w`. -/
theorem sign_extension_correct (w i : Nat) (hw : w < 2 ^ 32) (hi : i ≤ 31) :
    (11 ≤ i → ((Instruction.new w).i_immediate).testBit i = w.testBit 31) ∧
    (11 ≤ i → ((Instruction.new w).s_immediate).testBit i = w.testBit 31) ∧
    (12 ≤ i → ((Instruction.new w).b_immediate).testBit i = w.testBit 31) ∧
    (20 ≤ i → ((Instruction.new w).j_immediate).testBit i = w.testBit 31) := by
  refine ⟨fun h11 => ?_, fun h11 => ?_, fun h12 => ?_, fun h20 => ?_⟩
  · exact sra32_testBit_sign w 20 i hw (by omega) (by omega) hi
  · have m1 := testBit_mask_true (m := 0xFFFFFFE0) (i := i)
      (show (0xFFFFFFE0 : Nat) = 2 ^ 32 - 2 ^ 5 by norm_num) (by omega) (by omega) (by omega)
    have m2 : (0b11111 : Nat).testBit i = false := by
      rw [show (0b11111 : Nat) = 2 ^ 5 - 1 by norm_num, Nat.testBit_two_pow_sub_one]
      simp only [decide_eq_false_iff_not]
      omega
    have base := sra32_testBit_sign w 20 i hw (by omega) (by omega) hi
    show ((sra32 w 20 &&& 0xFFFFFFE0) ||| ((w >>> 7) &&& 0b11111)).testBit i = w.testBit 31
    rw [Nat.testBit_or, Nat.testBit_and, Nat.testBit_and, m1, m2, base]
    simp
  · have m1 := testBit_mask_true (m := 0xFFFFF000) (i := i)
      (show (0xFFFFF000 : Nat) = 2 ^ 32 - 2 ^ 12 by norm_num) (by omega) (by omega) (by omega)
    have m2 : (0b100000000000 : Nat).testBit i = false := by
      rw [show (0b100000000000 : Nat) = 2 ^ 11 by norm_num, Nat.testBit_two_pow]
      simp only [decide_eq_false_iff_not]
      omega
    have m3 := testBit_mask_false (m := 0b11111100000) (i := i)
      (show (0b11111100000 : Nat) = 2 ^ 11 - 2 ^ 5 by norm_num) (by omega) (Or.inr (by omega))
    have m4 := testBit_mask_false (m := 0b11110) (i := i)
      (show (0b11110 : Nat) = 2 ^ 5 - 2 ^ 1 by norm_num) (by omega) (Or.inr (by omega))
    have base := sra32_testBit_sign w 19 i hw (by omega) (by omega) hi
    show ((sra32 w 19 &&& 0xFFFFF000) |||
      ((w <<< 4) % 2 ^ 32 &&& 0b100000000000) |||
      ((w >>> 20) &&& 0b11111100000) |||
      ((w >>> 7) &&& 0b11110)).testBit i = w.testBit 31
    rw [Nat.testBit_or, Nat.testBit_or, Nat.testBit_or, Nat.testBit_and, Nat.testBit_and,
      Nat.testBit_and, Nat.testBit_and, m1, m2, m3, m4, base]
    simp
  · have m1 := testBit_mask_true (m := 0xFFF00000) (i := i)
      (show (0xFFF00000 : Nat) = 2 ^ 32 - 2 ^ 20 by norm_num) (by omega) (by omega) (by omega)
    have m2 := testBit_mask_false (m := 0x000FF000) (i := i)
      (show (0x000FF000 : Nat) = 2 ^ 20 - 2 ^ 12 by norm_num) (by omega) (Or.inr (by omega))
    have m3 : (0b100000000000 : Nat).testBit i = false := by
      rw [show (0b100000000000 : Nat) = 2 ^ 11 by norm_num, Nat.testBit_two_pow]
      simp only [decide_eq_false_iff_not]
      omega
    have m4 := testBit_mask_false (m := 0b11111111110) (i := i)
      (show (0b11111111110 : Nat) = 2 ^ 11 - 2 ^ 1 by norm_num) (by omega) (Or.inr (by omega))
    have base := sra32_testBit_sign w 11 i hw (by omega) (by omega) hi
    show ((sra32 w 11 &&& 0xFFF00000) |||
      (w &&& 0x000FF000) |||
      ((w >>> 8) &&& 0b100000000000) |||
      ((w >>> 20) &&& 0b11111111110)).testBit i = w.testBit 31
    rw [Nat.testBit_or, Nat.testBit_or, Nat.testBit_or, Nat.testBit_and, Nat.testBit_and,
      Nat.testBit_and, Nat.testBit_and, m1, m2, m3, m4, base]
    simp

/-- Witness for C1 at `w = 0x80000000`, `i = 31`. -/
theorem sign_extension_correct_witness :
    (11 ≤ 31 → ((Instruction.new 0x80000000).i_immediate).testBit 31 = (0x80000000 : Nat).testBit 31) ∧
    (11 ≤ 31 → ((Instruction.new 0x80000000).s_immediate).testBit 31 = (0x80000000 : Nat).testBit 31) ∧
    (12 ≤ 31 → ((Instruction.new 0x80000000).b_immediate).testBit 31 = (0x80000000 : Nat).testBit 31) ∧
    (20 ≤ 31 → ((Instruction.new 0x80000000).j_immediate).testBit 31 = (0x80000000 : Nat).testBit 31) :=
  sign_extension_correct 0x80000000 31 (by norm_num) (by norm_num)

/-- C2: the B/U/J fixture words decode exactly as listed: `0xfe857ee3`
(bgeu) has opcode `0b1100011`, funct3 `0b111`, rs1 = X10, rs2 = X8 and
b_immediate `-4` as an unsigned 32-bit pattern; `0xdead47b7` (lui) has
opcode `0b0110111`, rd = X15 and u_immediate `0xDEAD4000`; `0x2d5de3ef`
(jal) has opcode `0b1101111`, rd = X7 and j_immediate `0xDEAD4`. -/
theorem fixtures_buj_decode :
    Instruction.opcode (Instruction.new 0xfe857ee3) = 0b1100011 ∧
    Instruction.funct3 (Instruction.new 0xfe857ee3) = 0b111 ∧
    Instruction.rs1 (Instruction.new 0xfe857ee3) = Register.X10 ∧
    Instruction.rs2 (Instruction.new 0xfe857ee3) = Register.X8 ∧
    Instruction.b_immediate (Instruction.new 0xfe857ee3) = 0xFFFFFFFC ∧
    Instruction.b_immediate (Instruction.new 0xfe857ee3) = 2 ^ 32 - 4 ∧
    Instruction.opcode (Instruction.new 0xdead47b7) = 0b0110111 ∧
    Instruction.rd (Instruction.new 0xdead47b7) = Register.X15 ∧
    Instruction.u_immediate (Instruction.new 0xdead47b7) = 0xDEAD4000 ∧
    Instruction.opcode (Instruction.new 0x2d5de3ef) = 0b1101111 ∧
    Instruction.rd (Instruction.new 0x2d5de3ef) = Register.X7 ∧
    Instruction.j_immediate (Instruction.new 0x2d5de3ef) = 0xDEAD4 := by
  decide

/-- C3: the R/I/S fixture words decode exactly as listed: `0x4133d893`
(srai) has opcode `0b0010011`, funct3 `0b101`, funct7 `0b0100000`,
rd = X17, rs1 = X7, rs2 = X19; `0x4d258fe7` (jalr) has opcode
`0b1100111`, rd = X31, rs1 = X11 and i_immediate `1234`; `0x7fbfafa3`
(sw) has opcode `0b0100011`, funct3 `0b010`, rs1 = X31, rs2 = X27 and
s_immediate `0x7FF`. -/
theorem fixtures_ris_decode :
    Instruction.opcode (Instruction.new 0x4133d893) = 0b0010011 ∧
    Instruction.funct3 (Instruction.new 0x4133d893) = 0b101 ∧
    Instruction.funct7 (Instruction.new 0x4133d893) = 0b0100000 ∧
    Instruction.rd (Instruction.new 0x4133d893) = Register.X17 ∧
    Instruction.rs1 (Instruction.new 0x4133d893) = Register.X7 ∧
    Instruction.rs2 (Instruction.new 0x4133d893) = Register.X19 ∧
    Instruction.opcode (Instruction.new 0x4d258fe7) = 0b1100111 ∧
    Instruction.rd (Instruction.new 0x4d258fe7) = Register.X31 ∧
    Instruction.rs1 (Instruction.new 0x4d258fe7) = Register.X11 ∧
    Instruction.i_immediate (Instruction.new 0x4d258fe7) = 1234 ∧
    Instruction.opcode (Instruction.new 0x7fbfafa3) = 0b0100011 ∧
    Instruction.funct3 (Instruction.new 0x7fbfafa3) = 0b010 ∧
    Instruction.rs1 (Instruction.new 0x7fbfafa3) = Register.X31 ∧
    Instruction.rs2 (Instruction.new 0x7fbfafa3) = Register.X27 ∧
    Instruction.s_immediate (Instruction.new 0x7fbfafa3) = 0x7FF := by
  decide

/-- C4: `from_parcels` returns the compressed flag `true` and the first
parcel zero-extended (all bits above bit 15 clear) whenever the low two
bits of `p0` are not `0b11`, independent of `p1`; otherwise it returns
`false` and the little-endian combination `p0 + p1 * 2 ^ 16`. -/
theorem from_parcels_spec (p0 p1 i : Nat) (h0 : p0 < 2 ^ 16) (h1 : p1 < 2 ^ 16)
    (hi : 16 ≤ i) :
    (p0 % 4 ≠ 3 →
      Instruction.from_parcels p0 p1 = (Instruction.new p0, true) ∧
      ((Instruction.from_parcels p0 p1).1.val).testBit i = false) ∧
    (p0 % 4 = 3 →
      Instruction.from_parcels p0 p1 = (Instruction.new (p0 + p1 * 2 ^ 16), false)) := by
  have hand : p0 &&& 0b11 = p0 % 4 := by
    rw [show (0b11 : Nat) = 2 ^ 2 - 1 by norm_num, Nat.and_pow_two_sub_one_eq_mod]
  constructor
  · intro hne
    have hcond : p0 &&& 0b11 ≠ 0b11 := by rw [hand]; exact hne
    have hpair : Instruction.from_parcels p0 p1 = (Instruction.new p0, true) := by
      unfold Instruction.from_parcels
      rw [if_pos hcond]
      rfl
    refine ⟨hpair, ?_⟩
    rw [hpair]
    exact Nat.testBit_lt_two_pow (lt_of_lt_of_le h0 (Nat.pow_le_pow_right (by omega) hi))
  · intro heq
    have hcond : ¬ (p0 &&& 0b11 ≠ 0b11) := by rw [hand]; omega
    have key : Instruction.from_parcels p0 p1 =
        (Instruction.mk (p0 % 0x100 + p0 / 0x100 % 0x100 * 0x100 +
          p1 % 0x100 * 0x10000 + p1 / 0x100 % 0x100 * 0x1000000), false) := by
      unfold Instruction.from_parcels
      rw [if_neg hcond]
    rw [key]
    have harith : p0 % 0x100 + p0 / 0x100 % 0x100 * 0x100 +
        p1 % 0x100 * 0x10000 + p1 / 0x100 % 0x100 * 0x1000000 = p0 + p1 * 2 ^ 16 := by
      omega
    rw [harith]
    rfl

/-- Witness for C4 at `p0 = 0x8501`, `p1 = 0xBEEF`, `i = 16` (compressed
branch) combined with the standard branch hypothesis vacuous/true split. -/
theorem from_parcels_spec_witness :
    ((0x8501 : Nat) % 4 ≠ 3 →
      Instruction.from_parcels 0x8501 0xBEEF = (Instruction.new 0x8501, true) ∧
      ((Instruction.from_parcels 0x8501 0xBEEF).1.val).testBit 16 = false) ∧
    ((0x8501 : Nat) % 4 = 3 →
      Instruction.from_parcels 0x8501 0xBEEF =
        (Instruction.new (0x8501 + 0xBEEF * 2 ^ 16), false)) :=
  from_parcels_spec 0x8501 0xBEEF 16 (by norm_num) (by norm_num) (by norm_num)

/-- C5: `Register::new` round-trips every number at most 31 and fails for
every larger `u8`; failing is equivalent to `num > 31`. -/
theorem register_new_spec (n : Nat) (hn : n < 256) :
    (n ≤ 31 → ∃ r : Register, Register.new n = some r ∧ r.val = n) ∧
    (31 < n → Register.new n = none) ∧
    (Register.new n = none ↔ 31 < n) := by
  unfold Register.new
  by_cases h : n > 31
  · rw [dif_pos h]
    exact ⟨fun hle => by omega, fun _ => rfl, by simp [h]⟩
  · rw [dif_neg h]
    refine ⟨fun hle => ⟨⟨n, by omega⟩, rfl, rfl⟩, fun hlt => by omega, ?_⟩
    simp only [reduceCtorEq, false_iff]
    omega

/-- Witness for C5 at `n = 5`. -/
theorem register_new_spec_witness :
    ((5 : Nat) ≤ 31 → ∃ r : Register, Register.new 5 = some r ∧ r.val = 5) ∧
    (31 < (5 : Nat) → Register.new 5 = none) ∧
    (Register.new 5 = none ↔ 31 < (5 : Nat)) :=
  register_new_spec 5 (by norm_num)

/-- C6: every register-field accessor passes a value in `[0, 31]` to the
unchecked constructor (here: the proof obligation discharged at each call
site), and `crs1`/`crs2` return exactly the 3-bit raw field plus 8,
always in `X8`–`X15`. -/
theorem register_fields_in_range (w : Nat) :
    (Instruction.rd (Instruction.new w)).val ≤ 31 ∧
    (Instruction.rs1 (Instruction.new w)).val ≤ 31 ∧
    (Instruction.rs2 (Instruction.new w)).val ≤ 31 ∧
    (Instruction.compressed_rs1 (Instruction.new w)).val ≤ 31 ∧
    (Instruction.compressed_rs2 (Instruction.new w)).val ≤ 31 ∧
    (Instruction.crs1 (Instruction.new w)).val = ((w &&& 0x0380) >>> 7) + 8 ∧
    (Instruction.crs2 (Instruction.new w)).val = ((w &&& 0x001C) >>> 2) + 8 ∧
    8 ≤ (Instruction.crs1 (Instruction.new w)).val ∧
    (Instruction.crs1 (Instruction.new w)).val ≤ 15 ∧
    8 ≤ (Instruction.crs2 (Instruction.new w)).val ∧
    (Instruction.crs2 (Instruction.new w)).val ≤ 15 := by
  refine ⟨(Instruction.rd (Instruction.new w)).2, (Instruction.rs1 (Instruction.new w)).2,
    (Instruction.rs2 (Instruction.new w)).2, (Instruction.compressed_rs1 (Instruction.new w)).2,
    (Instruction.compressed_rs2 (Instruction.new w)).2, rfl, rfl,
    Nat.le_add_left 8 _, ?_, Nat.le_add_left 8 _, ?_⟩
  · have h := Nat.le_trans (field_le w 0x0380 7) (by decide : 0x0380 >>> 7 ≤ 7)
    show ((w &&& 0x0380) >>> 7) + 8 ≤ 15
    omega
  · have h := Nat.le_trans (field_le w 0x001C 2) (by decide : 0x001C >>> 2 ≤ 7)
    show ((w &&& 0x001C) >>> 2) + 8 ≤ 15
    omega

/-- C7: `compressed` and `standard` are mutually exclusive and
exhaustive (each is the boolean negation of the other), and `standard`
holds exactly when the low two bits of the word equal `0b11`. -/
theorem compressed_standard_dichotomy (w : Nat) :
    (Instruction.compressed (Instruction.new w) =
      !(Instruction.standard (Instruction.new w))) ∧
    (Instruction.standard (Instruction.new w) = true ↔ w % 4 = 3) := by
  have hand : w &&& 0b11 = w % 4 := by
    rw [show (0b11 : Nat) = 2 ^ 2 - 1 by norm_num, Nat.and_pow_two_sub_one_eq_mod]
  refine ⟨rfl, ?_⟩
  show ((w &&& 0b11 : Nat) == 0b11) = true ↔ w % 4 = 3
  rw [hand]
  simp

/-- C8: `u_immediate` has its low 12 bits zero and keeps bits [31:12] of
the word unchanged; bit 0 of `b_immediate` and of `j_immediate` is
always zero. -/
theorem immediate_alignment (w i : Nat) (hw : w < 2 ^ 32) (h12 : 12 ≤ i) :
    (Instruction.u_immediate (Instruction.new w)) % 2 ^ 12 = 0 ∧
    (Instruction.u_immediate (Instruction.new w)).testBit i = w.testBit i ∧
    (Instruction.b_immediate (Instruction.new w)).testBit 0 = false ∧
    (Instruction.j_immediate (Instruction.new w)).testBit 0 = false := by
  refine ⟨?_, ?_, ?_, ?_⟩
  · show (w &&& 0xFFFFF000) % 2 ^ 12 = 0
    rw [← Nat.and_pow_two_sub_one_eq_mod, Nat.and_assoc,
      show (0xFFFFF000 : Nat) &&& (2 ^ 12 - 1) = 0 by decide, Nat.and_zero]
  · show (w &&& 0xFFFFF000).testBit i = w.testBit i
    rcases Nat.lt_or_ge i 32 with h32 | h32
    · rw [Nat.testBit_and, testBit_mask_true (m := 0xFFFFF000) (i := i)
        (show (0xFFFFF000 : Nat) = 2 ^ 32 - 2 ^ 12 by norm_num) (by omega) h12 h32,
        Bool.and_true]
    · rw [Nat.testBit_and, testBit_mask_false (m := 0xFFFFF000) (i := i)
        (show (0xFFFFF000 : Nat) = 2 ^ 32 - 2 ^ 12 by norm_num) (by omega) (Or.inr h32),
        Bool.and_false]
      exact (Nat.testBit_lt_two_pow
        (lt_of_lt_of_le hw (Nat.pow_le_pow_right (by omega) h32))).symm
  · show ((sra32 w 19 &&& 0xFFFFF000) |||
      ((w <<< 4) % 2 ^ 32 &&& 0b100000000000) |||
      ((w >>> 20) &&& 0b11111100000) |||
      ((w >>> 7) &&& 0b11110)).testBit 0 = false
    rw [Nat.testBit_or, Nat.testBit_or, Nat.testBit_or, Nat.testBit_and, Nat.testBit_and,
      Nat.testBit_and, Nat.testBit_and,
      show (0xFFFFF000 : Nat).testBit 0 = false by decide,
      show (0b100000000000 : Nat).testBit 0 = false by decide,
      show (0b11111100000 : Nat).testBit 0 = false by decide,
      show (0b11110 : Nat).testBit 0 = false by decide]
    simp
  · show ((sra32 w 11 &&& 0xFFF00000) |||
      (w &&& 0x000FF000) |||
      ((w >>> 8) &&& 0b100000000000) |||
      ((w >>> 20) &&& 0b11111111110)).testBit 0 = false
    rw [Nat.testBit_or, Nat.testBit_or, Nat.testBit_or, Nat.testBit_and, Nat.testBit_and,
      Nat.testBit_and, Nat.testBit_and,
      show (0xFFF00000 : Nat).testBit 0 = false by decide,
      show (0x000FF000 : Nat).testBit 0 = false by decide,
      show (0b100000000000 : Nat).testBit 0 = false by decide,
      show (0b11111111110 : Nat).testBit 0 = false by decide]
    simp

/-- Witness for C8 at `w = 0xdead47b7`, `i = 12`. -/
theorem immediate_alignment_witness :
    (Instruction.u_immediate (Instruction.new 0xdead47b7)) % 2 ^ 12 = 0 ∧
    (Instruction.u_immediate (Instruction.new 0xdead47b7)).testBit 12 =
      (0xdead47b7 : Nat).testBit 12 ∧
    (Instruction.b_immediate (Instruction.new 0xdead47b7)).testBit 0 = false ∧
    (Instruction.j_immediate (Instruction.new 0xdead47b7)).testBit 0 = false :=
  immediate_alignment 0xdead47b7 12 (by norm_num) (by norm_num)

/-- C9: for both width specializations `interrupt` is true exactly when
the top bit of the stored value is set; the eight predefined exception
constants carry the values 0 through 7 in order, and `interrupt` is
false on every one of them. -/
theorem cause_interrupt_spec :
    (∀ c : Nat, Cause.interrupt32 c = c.testBit 31) ∧
    (∀ c : Nat, Cause.interrupt64 c = c.testBit 63) ∧
    (Cause.FETCH_MISALIGN = 0 ∧ Cause.FETCH_FAULT = 1 ∧
     Cause.ILLEGAL_INSTRUCTION = 2 ∧ Cause.BREAKPOINT = 3 ∧
     Cause.LOAD_MISALIGN = 4 ∧ Cause.LOAD_FAULT = 5 ∧
     Cause.STORE_MISALIGN = 6 ∧ Cause.STORE_FAULT = 7) ∧
    (Cause.interrupt32 Cause.FETCH_MISALIGN = false ∧
     Cause.interrupt32 Cause.FETCH_FAULT = false ∧
     Cause.interrupt32 Cause.ILLEGAL_INSTRUCTION = false ∧
     Cause.interrupt32 Cause.BREAKPOINT = false ∧
     Cause.interrupt32 Cause.LOAD_MISALIGN = false ∧
     Cause.interrupt32 Cause.LOAD_FAULT = false ∧
     Cause.interrupt32 Cause.STORE_MISALIGN = false ∧
     Cause.interrupt32 Cause.STORE_FAULT = false ∧
     Cause.interrupt64 Cause.FETCH_MISALIGN = false ∧
     Cause.interrupt64 Cause.FETCH_FAULT = false ∧
     Cause.interrupt64 Cause.ILLEGAL_INSTRUCTION = false ∧
     Cause.interrupt64 Cause.BREAKPOINT = false ∧
     Cause.interrupt64 Cause.LOAD_MISALIGN = false ∧
     Cause.interrupt64 Cause.LOAD_FAULT = false ∧
     Cause.interrupt64 Cause.STORE_MISALIGN = false ∧
     Cause.interrupt64 Cause.STORE_FAULT = false) := by
  refine ⟨fun c => ?_, fun c => ?_, by decide, by decide⟩
  · have hbit : Cause.INTERRUPT_BIT32 = 2 ^ 31 := by decide
    show (c &&& Cause.INTERRUPT_BIT32 != 0) = c.testBit 31
    rw [hbit, Nat.and_two_pow]
    cases hb : c.testBit 31 <;> simp
  · have hbit : Cause.INTERRUPT_BIT64 = 2 ^ 63 := by decide
    show (c &&& Cause.INTERRUPT_BIT64 != 0) = c.testBit 63
    rw [hbit, Nat.and_two_pow]
    cases hb : c.testBit 63 <;> simp

/-- C10: the standard destination-register accessor `rd` and the
compressed full-width accessor `compressed_rs1` both extract bits
[11:7] and are extensionally equal on every word. -/
theorem rd_eq_compressed_rs1 (w : Nat) :
    Instruction.rd (Instruction.new w) = Instruction.compressed_rs1 (Instruction.new w) :=
  rfl

end Rysk
